import Mathlib

/-!
Shallow embedding of the two dashboard controller variants and the form
view patch of the hr-hikvision-attendance repository.

Variant A is the controller in `src/unnamed/part_000` (second module:
department and job filters, employee list tab, progress colors); variant B
is `src/hr_attendance_dashboard/static/src/js/attendance_dashboard.js`
(absent and on-leave lists, leave list toggle, monthly guard in
`refreshData`).  JavaScript strings are modelled as Lean `String`, numbers
reaching the state through `parseInt` as `Option Nat` (with `none`
covering both `null` and `NaN`), remote call results as `Except Unit`
values supplied as parameters, and the side effect of issuing a remote
call as an explicit call log returned next to the new state.
-/

/-- Model of `String.prototype.toUpperCase` (character-wise uppercasing). -/
def jsToUpper (s : String) : String := String.mk (s.data.map Char.toUpper)

/-- Model of the JavaScript string indexing `s[i]`: `none` stands for the
`undefined` obtained when `i` is out of range. -/
def jsCharAt (s : String) (i : Nat) : Option Char := s.data.get? i

/-- Helper for `jsSplit`, walking the character list and cutting at every
separator, keeping empty fragments exactly like `split` in JavaScript. -/
def jsSplitAux (sep : Char) : List Char → List Char → List String
  | [], acc => [String.mk acc.reverse]
  | c :: rest, acc =>
    if c = sep then String.mk acc.reverse :: jsSplitAux sep rest []
    else jsSplitAux sep rest (c :: acc)

/-- Model of `String.prototype.split` with a one-character separator. -/
def jsSplit (s : String) (sep : Char) : List String := jsSplitAux sep s.data []

/-- Model of `name.substring(0, 2)`. -/
def jsTake2 (s : String) : String := String.mk (s.data.take 2)

/-- JavaScript truthiness of a number-or-null state field: `null`, `NaN`
(both mapped to `none`) and `0` are falsy, every other number is truthy. -/
def jsTruthyNum : Option Nat → Bool
  | some n => n != 0
  | none => false

/-- Model of `params.join` with separator `&`. -/
def jsJoinAmp : List String → String
  | [] => ""
  | p :: rest => rest.foldl (fun acc q => acc ++ "&" ++ q) p

/-- Embeds `(parts[0][0] + parts[1][0]).toUpperCase()` with JavaScript
coercions: an `undefined` character access coerced by `+` against a string
becomes the text `undefined`; when both accesses are `undefined` the sum
is the number `NaN` and `NaN.toUpperCase()` throws, modelled as `none`. -/
def initialsOfParts (p0 p1 : String) : Option String :=
  match jsCharAt p0 0, jsCharAt p1 0 with
  | some a, some b => some (jsToUpper (String.mk [a, b]))
  | some a, none => some (jsToUpper (String.mk [a] ++ "undefined"))
  | none, some b => some (jsToUpper ("undefined" ++ String.mk [b]))
  | none, none => none

/-- `getInitials` as written identically in both dashboard variants:
empty name gives `?`, two or more space-split parts give the first
characters of the first two parts uppercased, otherwise the first two
characters of the name uppercased.  The result is `none` exactly when the
JavaScript code throws. -/
def getInitials (name : String) : Option String :=
  if name = "" then some "?"
  else
    match jsSplit name ' ' with
    | p0 :: p1 :: _ => initialsOfParts p0 p1
    | _ => some (jsToUpper (jsTake2 name))

/-- Opaque aggregate payload returned by the server for today statistics;
the controllers never look inside it. -/
structure TodayStats where
  raw : Nat
deriving DecidableEq

/-- Opaque employee-status record; the claims never inspect its fields. -/
abbrev Emp := Nat

/-- A department (or job) entry: id paired with a display name. -/
abbrev DeptEntry := Nat × String

namespace VariantB

/-- Monthly summary record as initialised in `setup` of
`attendance_dashboard.js`; a successful `get_monthly_work_summary` call
replaces the whole record. -/
structure MonthlySummary where
  employees : List Emp
  days_in_month : Nat
  month : Nat
  year : Nat
  month_name : String
deriving DecidableEq

/-- The `useState` record of the variant B controller
(`attendance_dashboard.js`, `setup`). -/
structure State where
  loading : Bool
  refreshing : Bool
  selectedDepartment : Option Nat
  departments : List DeptEntry
  todayStats : TodayStats
  absentEmployees : List Emp
  onLeaveEmployees : List Emp
  showLeaveList : Bool
  lastUpdate : String
  activeTab : String
  monthlySummary : MonthlySummary
  selectedMonth : Option Nat
  selectedYear : Option Nat
deriving DecidableEq

/-- The initial state built in `setup`, parametrised by the wall clock
(`now`, current `month` and `year`) that the code reads from `new Date()`. -/
def initState (now : String) (month year : Nat) : State :=
  { loading := true
    refreshing := false
    selectedDepartment := none
    departments := []
    todayStats := ⟨0⟩
    absentEmployees := []
    onLeaveEmployees := []
    showLeaveList := false
    lastUpdate := now
    activeTab := "overview"
    monthlySummary := ⟨[], 31, month, year, ""⟩
    selectedMonth := some month
    selectedYear := some year }

/-- Payload of a successful `get_all_dashboard_data` call; the optional
`on_leave_employees` models the `|| []` default in the code. -/
structure DashData where
  today_stats : TodayStats
  absent_employees : List Emp
  on_leave_employees : Option (List Emp)
  departments : List DeptEntry
deriving DecidableEq

/-- One remote call issued through the orm service by variant B. -/
inductive Call where
  | getAllDashboardData (dept : Option Nat)
  | getMonthlyWorkSummary (dept : Option Nat) (month year : Option Nat)
deriving DecidableEq

/-- True exactly on `get_monthly_work_summary` calls. -/
def Call.isMonthly : Call → Bool
  | .getMonthlyWorkSummary .. => true
  | _ => false

/-- `loadDashboardData`: issues one `get_all_dashboard_data` call with the
selected department; on success copies the payload fields and clears
`loading`, on failure (the `catch` branch) only clears `loading`.  The
remote result is a parameter, the issued call is returned in the log. -/
def loadDashboardData (s : State) (resp : Except Unit DashData) (now : String) :
    State × List Call :=
  (match resp with
   | .ok d =>
     { s with
       todayStats := d.today_stats
       absentEmployees := d.absent_employees
       onLeaveEmployees := d.on_leave_employees.getD []
       departments := d.departments
       lastUpdate := now
       loading := false }
   | .error _ => { s with loading := false },
   [Call.getAllDashboardData s.selectedDepartment])

/-- `loadMonthlySummary`: issues one `get_monthly_work_summary` call with
the selected department, month and year; on success replaces
`monthlySummary`, on failure leaves the state untouched. -/
def loadMonthlySummary (s : State) (resp : Except Unit MonthlySummary) :
    State × List Call :=
  (match resp with
   | .ok d => { s with monthlySummary := d }
   | .error _ => s,
   [Call.getMonthlyWorkSummary s.selectedDepartment s.selectedMonth s.selectedYear])

/-- `refreshData`: sets `refreshing`, reloads the dashboard, reloads the
monthly summary only when the active tab is `monthly`, then clears
`refreshing`. -/
def refreshData (s : State) (r1 : Except Unit DashData)
    (r2 : Except Unit MonthlySummary) (now : String) : State × List Call :=
  let s0 := { s with refreshing := true }
  let p1 := loadDashboardData s0 r1 now
  if p1.1.activeTab = "monthly" then
    let p2 := loadMonthlySummary p1.1 r2
    ({ p2.1 with refreshing := false }, p1.2 ++ p2.2)
  else
    ({ p1.1 with refreshing := false }, p1.2)

/-- `onDepartmentChange`: stores the parsed selection (empty input gives
`null`, both modelled by the `Option Nat` argument) and refreshes. -/
def onDepartmentChange (s : State) (v : Option Nat) (r1 : Except Unit DashData)
    (r2 : Except Unit MonthlySummary) (now : String) : State × List Call :=
  refreshData { s with selectedDepartment := v } r1 r2 now

/-- `clearFilters`: resets the department filter and refreshes. -/
def clearFilters (s : State) (r1 : Except Unit DashData)
    (r2 : Except Unit MonthlySummary) (now : String) : State × List Call :=
  refreshData { s with selectedDepartment := none } r1 r2 now

/-- `setActiveTab`: stores the tab, hides the leave list, and eagerly
loads the monthly summary when entering the `monthly` tab. -/
def setActiveTab (s : State) (tab : String) (r : Except Unit MonthlySummary) :
    State × List Call :=
  let s1 := { s with activeTab := tab, showLeaveList := false }
  if tab = "monthly" then loadMonthlySummary s1 r else (s1, [])

/-- `toggleLeaveList`: flips the leave list flag. -/
def toggleLeaveList (s : State) : State := { s with showLeaveList := !s.showLeaveList }

/-- `onMonthChange`: stores the parsed month and reloads only the monthly
summary. -/
def onMonthChange (s : State) (v : Option Nat) (r : Except Unit MonthlySummary) :
    State × List Call :=
  loadMonthlySummary { s with selectedMonth := v } r

/-- `onYearChange`: stores the parsed year and reloads only the monthly
summary. -/
def onYearChange (s : State) (v : Option Nat) (r : Except Unit MonthlySummary) :
    State × List Call :=
  loadMonthlySummary { s with selectedYear := v } r

/-- The user interactions and timer events available on a mounted variant
B controller, each carrying the remote results its handlers will receive
and, where the handler reads the clock, the current time string. -/
inductive Op where
  | refresh (r1 : Except Unit DashData) (r2 : Except Unit MonthlySummary) (now : String)
  | deptChange (v : Option Nat) (r1 : Except Unit DashData)
      (r2 : Except Unit MonthlySummary) (now : String)
  | clearF (r1 : Except Unit DashData) (r2 : Except Unit MonthlySummary) (now : String)
  | setTab (tab : String) (r : Except Unit MonthlySummary)
  | toggleLeave
  | monthChange (v : Option Nat) (r : Except Unit MonthlySummary)
  | yearChange (v : Option Nat) (r : Except Unit MonthlySummary)

/-- State transition of one event (the call log is dropped here). -/
def applyOp (s : State) : Op → State
  | .refresh r1 r2 now => (refreshData s r1 r2 now).1
  | .deptChange v r1 r2 now => (onDepartmentChange s v r1 r2 now).1
  | .clearF r1 r2 now => (clearFilters s r1 r2 now).1
  | .setTab tab r => (setActiveTab s tab r).1
  | .toggleLeave => toggleLeaveList s
  | .monthChange v r => (onMonthChange s v r).1
  | .yearChange v r => (onYearChange s v r).1

/-- States the controller can be in after the blocking initial load of
`onWillStart` has completed (successfully or not), closed under every
later user interaction and timer event. -/
inductive Reachable (now0 : String) (m0 y0 : Nat) : State → Prop
  | init (r : Except Unit DashData) (now : String) :
      Reachable now0 m0 y0 (loadDashboardData (initState now0 m0 y0) r now).1
  | step (s : State) (op : Op) : Reachable now0 m0 y0 s →
      Reachable now0 m0 y0 (applyOp s op)

/-- The component with its host-framework lifecycle: `setup` registers an
`onWillStart` and an `onMounted` hook and no teardown hook; `onMounted`
starts the 60000 ms interval whose ticks run `refreshData`. -/
structure MountedComponent where
  state : State
  mounted : Bool
  timerActive : Bool
  fetchLog : List Call
deriving DecidableEq

/-- A freshly created, not yet mounted component. -/
def initComponent (now : String) (month year : Nat) : MountedComponent :=
  { state := initState now month year, mounted := false, timerActive := false, fetchLog := [] }

/-- The `onMounted` hook: `this.refreshInterval = setInterval(..., 60000)`. -/
def mountHook (c : MountedComponent) : MountedComponent :=
  { c with mounted := true, timerActive := true }

/-- Teardown: the component registers no `onWillUnmount` or similar hook
anywhere in `setup`, so unmounting only drops the view and never touches
the interval. -/
def unmountHook (c : MountedComponent) : MountedComponent :=
  { c with mounted := false }

/-- One firing of the interval: if the interval is still registered it
runs `refreshData`, whose issued remote calls are appended to the log. -/
def timerTick (c : MountedComponent) (r1 : Except Unit DashData)
    (r2 : Except Unit MonthlySummary) (now : String) : MountedComponent :=
  if c.timerActive then
    let p := refreshData c.state r1 r2 now
    { c with state := p.1, fetchLog := c.fetchLog ++ p.2 }
  else c

end VariantB

namespace VariantA

/-- Monthly summary record of the variant A controller (second module of
`src/unnamed/part_000`); replaced wholesale by fetches. -/
structure MonthlySummary where
  employees : List Emp
  month : Nat
  year : Nat
  month_name : String
deriving DecidableEq

/-- The `useState` record of the variant A controller. -/
structure State where
  loading : Bool
  refreshing : Bool
  selectedDepartment : Option Nat
  selectedJob : Option Nat
  departments : List DeptEntry
  jobs : List DeptEntry
  todayStats : TodayStats
  recentCheckins : List Emp
  lastUpdate : String
  activeTab : String
  employeeList : List Emp
  employeeFilter : String
  monthlySummary : MonthlySummary
  selectedMonth : Option Nat
  selectedYear : Option Nat
deriving DecidableEq

/-- Initial state built in `setup` of variant A. -/
def initState (now : String) (month year : Nat) : State :=
  { loading := true
    refreshing := false
    selectedDepartment := none
    selectedJob := none
    departments := []
    jobs := []
    todayStats := ⟨0⟩
    recentCheckins := []
    lastUpdate := now
    activeTab := "overview"
    employeeList := []
    employeeFilter := "all"
    monthlySummary := ⟨[], month, year, ""⟩
    selectedMonth := some month
    selectedYear := some year }

/-- Payload of a successful `get_all_dashboard_data` call in variant A:
unlike variant B it carries the monthly summary and the job list. -/
structure DashData where
  today_stats : TodayStats
  recent_checkins : List Emp
  monthly_summary : MonthlySummary
  departments : List DeptEntry
  jobs : List DeptEntry
deriving DecidableEq

/-- One remote call issued through the orm service by variant A. -/
inductive Call where
  | getAllDashboardData (dept job : Option Nat)
  | getEmployeeList (filter : String) (dept job : Option Nat)
  | getMonthlyWorkSummary (dept job : Option Nat) (month year : Option Nat)
deriving DecidableEq

/-- True exactly on `get_monthly_work_summary` calls. -/
def Call.isMonthly : Call → Bool
  | .getMonthlyWorkSummary .. => true
  | _ => false

/-- `loadDashboardData` of variant A: one `get_all_dashboard_data` call;
on success it also replaces `monthlySummary` from the payload, with no
look at the active tab; on failure only `loading` is cleared. -/
def loadDashboardData (s : State) (resp : Except Unit DashData) (now : String) :
    State × List Call :=
  (match resp with
   | .ok d =>
     { s with
       todayStats := d.today_stats
       recentCheckins := d.recent_checkins
       monthlySummary := d.monthly_summary
       departments := d.departments
       jobs := d.jobs
       lastUpdate := now
       loading := false }
   | .error _ => { s with loading := false },
   [Call.getAllDashboardData s.selectedDepartment s.selectedJob])

/-- `refreshData` of variant A: set `refreshing`, reload the full
dashboard, clear `refreshing` — with no monthly-tab guard. -/
def refreshData (s : State) (r : Except Unit DashData) (now : String) :
    State × List Call :=
  let s0 := { s with refreshing := true }
  let p := loadDashboardData s0 r now
  ({ p.1 with refreshing := false }, p.2)

/-- `loadMonthlySummary` of variant A (department, job, month, year). -/
def loadMonthlySummary (s : State) (resp : Except Unit MonthlySummary) :
    State × List Call :=
  (match resp with
   | .ok d => { s with monthlySummary := d }
   | .error _ => s,
   [Call.getMonthlyWorkSummary s.selectedDepartment s.selectedJob
     s.selectedMonth s.selectedYear])

/-- `getProgressColor`: at least 90 gives green, at least 70 gives amber,
anything below gives red.  The JavaScript number is modelled as a
rational. -/
def getProgressColor (rate : ℚ) : String :=
  if rate ≥ 90 then "#10b981"
  else if rate ≥ 70 then "#f59e0b"
  else "#ef4444"

/-- One conditional `params.push` of `exportToExcel`: the parameter is
pushed exactly when the field is truthy in the JavaScript sense. -/
def optParam (key : String) (v : Option Nat) : List String :=
  match v with
  | some n => if n ≠ 0 then [key ++ toString n] else []
  | none => []

/-- The `params` array built by `exportToExcel`, in push order. -/
def exportParams (s : State) : List String :=
  optParam "department_id=" s.selectedDepartment ++
  optParam "job_id=" s.selectedJob ++
  optParam "month=" s.selectedMonth ++
  optParam "year=" s.selectedYear

/-- `exportToExcel`: the URL opened in the new browser context (the
window.open side effect returns nothing to the controller). -/
def exportToExcel (s : State) : String :=
  "/attendance_dashboard/export_monthly_excel?" ++ jsJoinAmp (exportParams s)

end VariantA

namespace FormPatch

/-- The action menu items object of the form controller; the patch either
returns the empty object or the untouched super getter value. -/
structure MenuItems where
  entries : List String
deriving DecidableEq

/-- The empty object `\x7b\x7d` returned for the suppressed model. -/
def emptyMenu : MenuItems := ⟨[]⟩

/-- The patched `actionMenuItems` getter of `FormController` (first
module of `src/unnamed/part_000`): for the model `hr.daily.report` it
returns the empty object, otherwise the super getter value unchanged. -/
def actionMenuItems (resModel : String) (superItems : MenuItems) : MenuItems :=
  if resModel = "hr.daily.report" then emptyMenu else superItems

end FormPatch

/-- C8: getProgressColor returns the green color exactly for rates of at
least 90, the amber color exactly for rates in the interval from 70 going
up to but excluding 90, the red color exactly for rates below 70; and the
sample points 90, 89.9, 70 and 69.9 evaluate to green, amber, amber and
red respectively. -/
theorem getProgressColor_thresholds :
    (∀ rate : ℚ,
      (VariantA.getProgressColor rate = "#10b981" ↔ 90 ≤ rate) ∧
      (VariantA.getProgressColor rate = "#f59e0b" ↔ 70 ≤ rate ∧ rate < 90) ∧
      (VariantA.getProgressColor rate = "#ef4444" ↔ rate < 70)) ∧
    VariantA.getProgressColor 90 = "#10b981" ∧
    VariantA.getProgressColor (899 / 10) = "#f59e0b" ∧
    VariantA.getProgressColor 70 = "#f59e0b" ∧
    VariantA.getProgressColor (699 / 10) = "#ef4444" := by
  refine ⟨fun rate => ?_, ?_, ?_, ?_, ?_⟩
  · unfold VariantA.getProgressColor
    split_ifs with h1 h2
    · exact ⟨⟨fun _ => h1, fun _ => rfl⟩,
        ⟨fun hc => absurd hc (by decide), fun hr => absurd hr.2 (by linarith)⟩,
        ⟨fun hc => absurd hc (by decide), fun hr => absurd hr (by linarith)⟩⟩
    · exact ⟨⟨fun hc => absurd hc (by decide), fun hr => absurd hr h1⟩,
        ⟨fun _ => ⟨h2, not_le.mp h1⟩, fun _ => rfl⟩,
        ⟨fun hc => absurd hc (by decide), fun hr => absurd hr (not_lt.mpr h2)⟩⟩
    · exact ⟨⟨fun hc => absurd hc (by decide), fun hr => absurd hr h1⟩,
        ⟨fun hc => absurd hc (by decide), fun hr => absurd hr.1 h2⟩,
        ⟨fun _ => not_le.mp h2, fun _ => rfl⟩⟩
  · unfold VariantA.getProgressColor; norm_num
  · unfold VariantA.getProgressColor; norm_num
  · unfold VariantA.getProgressColor; norm_num
  · unfold VariantA.getProgressColor; norm_num

/-- C9: the patched actionMenuItems getter returns the empty menu object
exactly for the model hr.daily.report and the unmodified super getter
value for every other model. -/
theorem actionMenuItems_patch_spec :
    (∀ superItems : FormPatch.MenuItems,
       FormPatch.actionMenuItems "hr.daily.report" superItems = FormPatch.emptyMenu) ∧
    (∀ (m : String) (superItems : FormPatch.MenuItems), m ≠ "hr.daily.report" →
       FormPatch.actionMenuItems m superItems = superItems) := by
  refine ⟨fun superItems => ?_, fun m superItems hm => ?_⟩
  · simp [FormPatch.actionMenuItems]
  · simp [FormPatch.actionMenuItems, hm]

/-- Witness for C9: an unrelated model keeps its super menu items. -/
theorem actionMenuItems_patch_spec_witness :
    FormPatch.actionMenuItems "res.partner" ⟨["archive"]⟩ = ⟨["archive"]⟩ :=
  actionMenuItems_patch_spec.2 "res.partner" ⟨["archive"]⟩ (by decide)

/-- C3: a failing get_all_dashboard_data only clears loading, a failing
get_monthly_work_summary leaves the state untouched, a refresh in which
both calls fail changes nothing but the two flags (both ending false),
and the initial load with a failing call ends with loading false; the
embedded operations are total functions, so no exception reaches the
caller. -/
theorem fetch_failure_leaves_state (s : VariantB.State) (now now2 : String) (m y : Nat) :
    (VariantB.loadDashboardData s (Except.error ()) now).1 = { s with loading := false } ∧
    (VariantB.loadMonthlySummary s (Except.error ())).1 = s ∧
    (VariantB.refreshData s (Except.error ()) (Except.error ()) now).1 =
      { s with loading := false, refreshing := false } ∧
    ((VariantB.loadDashboardData (VariantB.initState now m y) (Except.error ()) now2).1).loading
      = false := by
  refine ⟨rfl, rfl, ?_, rfl⟩
  simp only [VariantB.refreshData]
  split <;> rfl

/-- C7: changing the month (resp. year) issues exactly the one monthly
summary call with the new value and the current filters, triggers no full
dashboard fetch, updates only the selection field, replaces the monthly
summary on success and keeps it on failure, and leaves every other state
field unchanged. -/
theorem month_year_change_frame (s : VariantB.State) (v : Option Nat)
    (r : Except Unit VariantB.MonthlySummary) (d : VariantB.MonthlySummary) :
    ((VariantB.onMonthChange s v r).2 =
       [VariantB.Call.getMonthlyWorkSummary s.selectedDepartment v s.selectedYear]) ∧
    ((VariantB.onMonthChange s v r).1.selectedMonth = v ∧
     (VariantB.onMonthChange s v r).1.todayStats = s.todayStats ∧
     (VariantB.onMonthChange s v r).1.absentEmployees = s.absentEmployees ∧
     (VariantB.onMonthChange s v r).1.onLeaveEmployees = s.onLeaveEmployees ∧
     (VariantB.onMonthChange s v r).1.departments = s.departments ∧
     (VariantB.onMonthChange s v r).1.selectedDepartment = s.selectedDepartment ∧
     (VariantB.onMonthChange s v r).1.selectedYear = s.selectedYear ∧
     (VariantB.onMonthChange s v r).1.activeTab = s.activeTab ∧
     (VariantB.onMonthChange s v r).1.showLeaveList = s.showLeaveList ∧
     (VariantB.onMonthChange s v r).1.lastUpdate = s.lastUpdate ∧
     (VariantB.onMonthChange s v r).1.loading = s.loading ∧
     (VariantB.onMonthChange s v r).1.refreshing = s.refreshing) ∧
    (VariantB.onMonthChange s v (Except.ok d)).1.monthlySummary = d ∧
    (VariantB.onMonthChange s v (Except.error ())).1.monthlySummary = s.monthlySummary ∧
    ((VariantB.onYearChange s v r).2 =
       [VariantB.Call.getMonthlyWorkSummary s.selectedDepartment s.selectedMonth v]) ∧
    ((VariantB.onYearChange s v r).1.selectedYear = v ∧
     (VariantB.onYearChange s v r).1.todayStats = s.todayStats ∧
     (VariantB.onYearChange s v r).1.absentEmployees = s.absentEmployees ∧
     (VariantB.onYearChange s v r).1.onLeaveEmployees = s.onLeaveEmployees ∧
     (VariantB.onYearChange s v r).1.departments = s.departments ∧
     (VariantB.onYearChange s v r).1.selectedDepartment = s.selectedDepartment ∧
     (VariantB.onYearChange s v r).1.selectedMonth = s.selectedMonth ∧
     (VariantB.onYearChange s v r).1.activeTab = s.activeTab ∧
     (VariantB.onYearChange s v r).1.showLeaveList = s.showLeaveList ∧
     (VariantB.onYearChange s v r).1.lastUpdate = s.lastUpdate ∧
     (VariantB.onYearChange s v r).1.loading = s.loading ∧
     (VariantB.onYearChange s v r).1.refreshing = s.refreshing) ∧
    (VariantB.onYearChange s v (Except.ok d)).1.monthlySummary = d ∧
    (VariantB.onYearChange s v (Except.error ())).1.monthlySummary = s.monthlySummary := by
  cases r <;>
    exact ⟨rfl, ⟨rfl, rfl, rfl, rfl, rfl, rfl, rfl, rfl, rfl, rfl, rfl, rfl⟩, rfl, rfl,
      rfl, ⟨rfl, rfl, rfl, rfl, rfl, rfl, rfl, rfl, rfl, rfl, rfl, rfl⟩, rfl, rfl⟩

/-- C5: a variant B background refresh issues a monthly summary call if
and only if the active tab is monthly, while a variant A refresh issues
exactly the one full dashboard call (never a monthly call) and, on
success, overwrites the monthly summary from the full payload whatever
the active tab is. -/
theorem refresh_monthly_guard :
    (∀ (s : VariantB.State) (r1 : Except Unit VariantB.DashData)
       (r2 : Except Unit VariantB.MonthlySummary) (now : String),
       ((VariantB.refreshData s r1 r2 now).2.any VariantB.Call.isMonthly = true) ↔
         s.activeTab = "monthly") ∧
    (∀ (s : VariantA.State) (r : Except Unit VariantA.DashData) (now : String),
       (VariantA.refreshData s r now).2 =
         [VariantA.Call.getAllDashboardData s.selectedDepartment s.selectedJob]) ∧
    (∀ (s : VariantA.State) (d : VariantA.DashData) (now : String),
       ((VariantA.refreshData s (Except.ok d) now).1).monthlySummary = d.monthly_summary) := by
  refine ⟨fun s r1 r2 now => ?_, fun s r now => rfl, fun s d now => rfl⟩
  cases r1 <;>
    · by_cases h : s.activeTab = "monthly" <;>
        simp [VariantB.refreshData, VariantB.loadDashboardData, VariantB.loadMonthlySummary,
          VariantB.Call.isMonthly, h]

/-- C2: the component registers no teardown hook, so unmounting leaves the
60 second interval registered and its next tick still runs refreshData
and issues a remote fetch; demonstrated on a concrete trace where the
fetch log is empty at unmount time and non-empty one tick later.  This
contradicts the documented requirement that the timer be cancelled on
teardown. -/
theorem timer_fires_after_unmount :
    (∀ c : VariantB.MountedComponent, (VariantB.unmountHook c).timerActive = c.timerActive) ∧
    (VariantB.unmountHook (VariantB.mountHook (VariantB.initComponent "t0" 5 2024))).mounted
      = false ∧
    (VariantB.unmountHook (VariantB.mountHook (VariantB.initComponent "t0" 5 2024))).fetchLog
      = [] ∧
    (VariantB.timerTick
        (VariantB.unmountHook (VariantB.mountHook (VariantB.initComponent "t0" 5 2024)))
        (Except.error ()) (Except.error ()) "t1").fetchLog
      = [VariantB.Call.getAllDashboardData none] := by
  exact ⟨fun c => rfl, rfl, rfl, by decide⟩

/-- Every member of one conditional push comes from a truthy field and
carries the push key in front. -/
lemma mem_optParam {key p : String} {v : Option Nat}
    (hp : p ∈ VariantA.optParam key v) :
    ∃ n, v = some n ∧ n ≠ 0 ∧ p = key ++ toString n := by
  cases v with
  | none => simp [VariantA.optParam] at hp
  | some n =>
    by_cases h : n = 0
    · simp [VariantA.optParam, h] at hp
    · simp [VariantA.optParam, h] at hp
      exact ⟨n, rfl, h, hp⟩

/-- The first character of an append is the first character of a
non-empty left part. -/
lemma data_head_append (a b : String) (c : Char) (l : List Char)
    (h : a.data = c :: l) : (a ++ b).data.head? = some c := by
  cases a with
  | mk la =>
    cases b with
    | mk lb =>
      simp at h
      simp [h]

/-- Decomposition of membership in the params array: every pushed
parameter comes from one of the four truthy fields with its own key. -/
lemma mem_exportParams {s : VariantA.State} {p : String}
    (hp : p ∈ VariantA.exportParams s) :
    (∃ n, s.selectedDepartment = some n ∧ n ≠ 0 ∧ p = "department_id=" ++ toString n) ∨
    (∃ n, s.selectedJob = some n ∧ n ≠ 0 ∧ p = "job_id=" ++ toString n) ∨
    (∃ n, s.selectedMonth = some n ∧ n ≠ 0 ∧ p = "month=" ++ toString n) ∨
    (∃ n, s.selectedYear = some n ∧ n ≠ 0 ∧ p = "year=" ++ toString n) := by
  unfold VariantA.exportParams at hp
  rcases List.mem_append.mp hp with hp1 | hp1
  · rcases List.mem_append.mp hp1 with hp2 | hp2
    · rcases List.mem_append.mp hp2 with hp3 | hp3
      · exact Or.inl (mem_optParam hp3)
      · exact Or.inr (Or.inl (mem_optParam hp3))
    · exact Or.inr (Or.inr (Or.inl (mem_optParam hp2)))
  · exact Or.inr (Or.inr (Or.inr (mem_optParam hp1)))

/-- C1: exportToExcel builds the URL from the fixed export path; each of
the four query parameters is present only when the matching state field
is non-null (the key initials d, j, m, y of department_id, job_id, month
and year discriminate the four parameters); with all four fields null the
query string is empty, and with only department 3 and year 2024 set the
query string is exactly department_id=3&year=2024. -/
theorem exportToExcel_url_spec :
    (∀ s : VariantA.State, s.selectedDepartment = none →
       ∀ p ∈ VariantA.exportParams s, p.data.head? ≠ some 'd') ∧
    (∀ s : VariantA.State, s.selectedJob = none →
       ∀ p ∈ VariantA.exportParams s, p.data.head? ≠ some 'j') ∧
    (∀ s : VariantA.State, s.selectedMonth = none →
       ∀ p ∈ VariantA.exportParams s, p.data.head? ≠ some 'm') ∧
    (∀ s : VariantA.State, s.selectedYear = none →
       ∀ p ∈ VariantA.exportParams s, p.data.head? ≠ some 'y') ∧
    (∀ (s : VariantA.State) (n : Nat), s.selectedDepartment = some n → n ≠ 0 →
       ("department_id=" ++ toString n) ∈ VariantA.exportParams s) ∧
    (∀ (s : VariantA.State) (n : Nat), s.selectedYear = some n → n ≠ 0 →
       ("year=" ++ toString n) ∈ VariantA.exportParams s) ∧
    VariantA.exportToExcel
        { VariantA.initState "t" 1 2024 with selectedMonth := none, selectedYear := none } =
      "/attendance_dashboard/export_monthly_excel?" ∧
    VariantA.exportToExcel
        { VariantA.initState "t" 1 2024 with
            selectedDepartment := some 3
            selectedMonth := none
            selectedYear := some 2024 } =
      "/attendance_dashboard/export_monthly_excel?department_id=3&year=2024" := by
  refine ⟨?_, ?_, ?_, ?_, ?_, ?_, by decide, by decide⟩
  · intro s h p hp
    rcases mem_exportParams hp with ⟨n, hn, -, -⟩ | ⟨n, -, -, rfl⟩ | ⟨n, -, -, rfl⟩ | ⟨n, -, -, rfl⟩
    · rw [h] at hn; exact Option.noConfusion hn
    · rw [data_head_append "job_id=" (toString n) 'j' "ob_id=".data rfl]; decide
    · rw [data_head_append "month=" (toString n) 'm' "onth=".data rfl]; decide
    · rw [data_head_append "year=" (toString n) 'y' "ear=".data rfl]; decide
  · intro s h p hp
    rcases mem_exportParams hp with ⟨n, -, -, rfl⟩ | ⟨n, hn, -, -⟩ | ⟨n, -, -, rfl⟩ | ⟨n, -, -, rfl⟩
    · rw [data_head_append "department_id=" (toString n) 'd' "epartment_id=".data rfl]; decide
    · rw [h] at hn; exact Option.noConfusion hn
    · rw [data_head_append "month=" (toString n) 'm' "onth=".data rfl]; decide
    · rw [data_head_append "year=" (toString n) 'y' "ear=".data rfl]; decide
  · intro s h p hp
    rcases mem_exportParams hp with ⟨n, -, -, rfl⟩ | ⟨n, -, -, rfl⟩ | ⟨n, hn, -, -⟩ | ⟨n, -, -, rfl⟩
    · rw [data_head_append "department_id=" (toString n) 'd' "epartment_id=".data rfl]; decide
    · rw [data_head_append "job_id=" (toString n) 'j' "ob_id=".data rfl]; decide
    · rw [h] at hn; exact Option.noConfusion hn
    · rw [data_head_append "year=" (toString n) 'y' "ear=".data rfl]; decide
  · intro s h p hp
    rcases mem_exportParams hp with ⟨n, -, -, rfl⟩ | ⟨n, -, -, rfl⟩ | ⟨n, -, -, rfl⟩ | ⟨n, hn, -, -⟩
    · rw [data_head_append "department_id=" (toString n) 'd' "epartment_id=".data rfl]; decide
    · rw [data_head_append "job_id=" (toString n) 'j' "ob_id=".data rfl]; decide
    · rw [data_head_append "month=" (toString n) 'm' "onth=".data rfl]; decide
    · rw [h] at hn; exact Option.noConfusion hn
  · intro s n h hn
    unfold VariantA.exportParams
    refine List.mem_append.mpr (Or.inl (List.mem_append.mpr (Or.inl
      (List.mem_append.mpr (Or.inl ?_)))))
    simp [VariantA.optParam, h, hn]
  · intro s n h hn
    unfold VariantA.exportParams
    refine List.mem_append.mpr (Or.inr ?_)
    simp [VariantA.optParam, h, hn]

/-- Witness for C1: in a state whose department field is null but whose
job field is set, the job parameter of the export URL does not start with
the department key initial. -/
theorem exportToExcel_url_spec_witness :
    ("job_id=" ++ toString 7).data.head? ≠ some 'd' :=
  exportToExcel_url_spec.1
    { VariantA.initState "t" 1 2024 with
        selectedJob := some 7
        selectedMonth := none
        selectedYear := none }
    rfl ("job_id=" ++ toString 7) (by decide)

/-- C4 counterexample: the one-character name consisting of a question
mark is non-empty, yet getInitials returns the question mark for it (the
single-token branch uppercases the first two characters, which here are
the question mark itself), refuting the claim that the question mark is
returned iff the name is empty. -/
theorem getInitials_question_mark_cex :
    getInitials "?" = some "?" ∧ ("?" : String) ≠ "" := by decide

/-- C4 (amended): getInitials returns the question mark if the name is
empty; for every name splitting on spaces into at least two parts whose
first two parts are both non-empty it returns exactly the two uppercased
first characters of those parts; for every non-empty single-part name it
returns the uppercase of its first two characters. -/
theorem getInitials_spec :
    getInitials "" = some "?" ∧
    (∀ (name : String) (a b : Char) (t0 t1 : List Char) (rest : List String),
       name ≠ "" →
       jsSplit name ' ' = String.mk (a :: t0) :: String.mk (b :: t1) :: rest →
       getInitials name = some (String.mk [a.toUpper, b.toUpper])) ∧
    (∀ (name p : String), name ≠ "" → jsSplit name ' ' = [p] →
       getInitials name = some (jsToUpper (jsTake2 name))) := by
  refine ⟨rfl, ?_, ?_⟩
  · intro name a b t0 t1 rest hne hsplit
    unfold getInitials
    rw [if_neg hne, hsplit]
    rfl
  · intro name p hne hsplit
    unfold getInitials
    rw [if_neg hne, hsplit]

/-- Witness for C4: a two-token name evaluates to the two uppercased
initials. -/
theorem getInitials_spec_witness :
    getInitials "John Smith" = some (String.mk ['J'.toUpper, 'S'.toUpper]) :=
  getInitials_spec.2.1 "John Smith" 'J' 'S' ['o', 'h', 'n'] ['m', 'i', 't', 'h'] []
    (by decide) (by decide)

/-- The uppercasing model never changes the number of characters. -/
lemma jsToUpper_mk_length (l : List Char) : (jsToUpper (String.mk l)).length = l.length := by
  show (l.map Char.toUpper).length = l.length
  simp

/-- C10: whenever a non-empty name splits into at least two parts and the
first or the second part is empty, the character access inside
getInitials is out of bounds and the result is never a two-character
string: either the undefined value leaks into the returned text (ten
characters instead of two) or the call throws (result none).  The sample
names (space X) and (single space) illustrate both outcomes. -/
theorem getInitials_out_of_bounds :
    (∀ (name p0 p1 : String) (rest : List String),
       name ≠ "" → jsSplit name ' ' = p0 :: p1 :: rest → (p0 = "" ∨ p1 = "") →
       ∀ r, getInitials name = some r → r.length ≠ 2) ∧
    getInitials " X" = some "UNDEFINEDX" ∧
    getInitials " " = none := by
  refine ⟨?_, by decide, by decide⟩
  intro name p0 p1 rest hne hsplit hemp r hr
  unfold getInitials at hr
  rw [if_neg hne, hsplit] at hr
  obtain ⟨l0⟩ := p0
  obtain ⟨l1⟩ := p1
  cases l0 with
  | nil =>
    cases l1 with
    | nil => exact Option.noConfusion hr
    | cons b t1 =>
      have hr2 : jsToUpper ("undefined" ++ String.mk [b]) = r := Option.some.inj hr
      rw [← hr2]
      have : ("undefined" ++ String.mk [b]) = String.mk ('u' :: 'n' :: 'd' :: 'e' :: 'f'
          :: 'i' :: 'n' :: 'e' :: 'd' :: [b]) := rfl
      rw [this, jsToUpper_mk_length]
      simp
  | cons a t0 =>
    cases l1 with
    | nil =>
      have hr2 : jsToUpper (String.mk [a] ++ "undefined") = r := Option.some.inj hr
      rw [← hr2]
      have : (String.mk [a] ++ "undefined") = String.mk (a :: 'u' :: 'n' :: 'd' :: 'e'
          :: 'f' :: 'i' :: 'n' :: 'e' :: ['d']) := rfl
      rw [this, jsToUpper_mk_length]
      simp
    | cons b t1 =>
      rcases hemp with h | h
      · exact absurd (congrArg String.data h) (by simp)
      · exact absurd (congrArg String.data h) (by simp)

/-- Witness for C10: the name starting with a space splits into an empty
first part, and the returned string indeed does not have two characters. -/
theorem getInitials_out_of_bounds_witness : ("UNDEFINEDX" : String).length ≠ 2 :=
  getInitials_out_of_bounds.1 " X" "" "X" [] (by decide) (by decide) (Or.inl rfl)
    "UNDEFINEDX" (by decide)

/-- The full dashboard load always ends with loading cleared and never
writes the refreshing flag. -/
lemma loadDashboardData_flags (s : VariantB.State) (r : Except Unit VariantB.DashData)
    (now : String) :
    ((VariantB.loadDashboardData s r now).1).loading = false ∧
    ((VariantB.loadDashboardData s r now).1).refreshing = s.refreshing := by
  cases r <;> exact ⟨rfl, rfl⟩

/-- The monthly summary load writes neither flag. -/
lemma loadMonthlySummary_flags (s : VariantB.State)
    (r : Except Unit VariantB.MonthlySummary) :
    ((VariantB.loadMonthlySummary s r).1).loading = s.loading ∧
    ((VariantB.loadMonthlySummary s r).1).refreshing = s.refreshing := by
  cases r <;> exact ⟨rfl, rfl⟩

/-- A background refresh always ends with both flags cleared, whether the
embedded calls succeed or fail. -/
lemma refreshData_flags (s : VariantB.State) (r1 : Except Unit VariantB.DashData)
    (r2 : Except Unit VariantB.MonthlySummary) (now : String) :
    ((VariantB.refreshData s r1 r2 now).1).loading = false ∧
    ((VariantB.refreshData s r1 r2 now).1).refreshing = false := by
  cases r1 <;> cases r2 <;>
    · simp only [VariantB.refreshData]
      split <;> exact ⟨rfl, rfl⟩

/-- Tab switching writes neither flag. -/
lemma setActiveTab_flags (s : VariantB.State) (tab : String)
    (r : Except Unit VariantB.MonthlySummary) :
    ((VariantB.setActiveTab s tab r).1).loading = s.loading ∧
    ((VariantB.setActiveTab s tab r).1).refreshing = s.refreshing := by
  by_cases h : tab = "monthly" <;> simp only [VariantB.setActiveTab, if_pos, if_neg, h]
  · cases r <;> exact ⟨rfl, rfl⟩
  · exact ⟨rfl, rfl⟩

/-- Flag behaviour of every single event on a mounted controller. -/
lemma applyOp_flags (s : VariantB.State) (op : VariantB.Op) :
    ((VariantB.applyOp s op).loading = false ∨ (VariantB.applyOp s op).loading = s.loading) ∧
    ((VariantB.applyOp s op).refreshing = false ∨
      (VariantB.applyOp s op).refreshing = s.refreshing) := by
  cases op with
  | refresh r1 r2 now =>
    exact ⟨Or.inl (refreshData_flags s r1 r2 now).1, Or.inl (refreshData_flags s r1 r2 now).2⟩
  | deptChange v r1 r2 now =>
    exact ⟨Or.inl (refreshData_flags _ r1 r2 now).1, Or.inl (refreshData_flags _ r1 r2 now).2⟩
  | clearF r1 r2 now =>
    exact ⟨Or.inl (refreshData_flags _ r1 r2 now).1, Or.inl (refreshData_flags _ r1 r2 now).2⟩
  | setTab tab r =>
    exact ⟨Or.inr (setActiveTab_flags s tab r).1, Or.inr (setActiveTab_flags s tab r).2⟩
  | toggleLeave => exact ⟨Or.inr rfl, Or.inr rfl⟩
  | monthChange v r =>
    exact ⟨Or.inr (loadMonthlySummary_flags _ r).1, Or.inr (loadMonthlySummary_flags _ r).2⟩
  | yearChange v r =>
    exact ⟨Or.inr (loadMonthlySummary_flags _ r).1, Or.inr (loadMonthlySummary_flags _ r).2⟩

/-- C6: before the first fetch the state has loading true and refreshing
false; completing the first fetch (success or failure) clears loading and
never touches refreshing, so refreshing stays false during the initial
load; a refresh always ends with refreshing false whatever its calls
return; and in every state reachable once the initial load has completed,
under any sequence of user interactions and timer ticks, loading is false
forever (never set true again) and refreshing is false whenever no
re-fetch is in flight. -/
theorem loading_refreshing_invariant :
    (∀ (now : String) (m y : Nat),
       (VariantB.initState now m y).loading = true ∧
       (VariantB.initState now m y).refreshing = false) ∧
    (∀ (s : VariantB.State) (r : Except Unit VariantB.DashData) (now : String),
       ((VariantB.loadDashboardData s r now).1).loading = false ∧
       ((VariantB.loadDashboardData s r now).1).refreshing = s.refreshing) ∧
    (∀ (s : VariantB.State) (r1 : Except Unit VariantB.DashData)
       (r2 : Except Unit VariantB.MonthlySummary) (now : String),
       ((VariantB.refreshData s r1 r2 now).1).refreshing = false) ∧
    (∀ (now0 : String) (m0 y0 : Nat) (s : VariantB.State),
       VariantB.Reachable now0 m0 y0 s → s.loading = false ∧ s.refreshing = false) := by
  refine ⟨fun now m y => ⟨rfl, rfl⟩, loadDashboardData_flags, ?_, ?_⟩
  · exact fun s r1 r2 now => (refreshData_flags s r1 r2 now).2
  · intro now0 m0 y0 s h
    induction h with
    | init r now =>
      exact ⟨(loadDashboardData_flags _ r now).1, (loadDashboardData_flags _ r now).2⟩
    | step s2 op hprev ih =>
      obtain ⟨ihl, ihr⟩ := ih
      rcases applyOp_flags s2 op with ⟨hl | hl, hr | hr⟩
      · exact ⟨hl, hr⟩
      · exact ⟨hl, hr.trans ihr⟩
      · exact ⟨hl.trans ihl, hr⟩
      · exact ⟨hl.trans ihl, hr.trans ihr⟩

/-- Witness for C6: a concrete state reached by a failed initial load
followed by toggling the leave list has both flags false. -/
theorem loading_refreshing_invariant_witness :
    (VariantB.applyOp
        (VariantB.loadDashboardData (VariantB.initState "t0" 1 2024)
          (Except.error ()) "t0").1 VariantB.Op.toggleLeave).loading = false ∧
    (VariantB.applyOp
        (VariantB.loadDashboardData (VariantB.initState "t0" 1 2024)
          (Except.error ()) "t0").1 VariantB.Op.toggleLeave).refreshing = false :=
  loading_refreshing_invariant.2.2.2 "t0" 1 2024 _
    (VariantB.Reachable.step _ VariantB.Op.toggleLeave
      (VariantB.Reachable.init (Except.error ()) "t0"))

